import Mathlib

/-!
Formal model of the SlipNet native control bridge
(`app/src/main/rust/slipstream-rust/crates/slipstream-client/src/android.rs`).

The module holds four pieces of process-wide mutable state:
`JAVA_VM : AtomicPtr<JavaVM>`, `BRIDGE_CLASS : OnceLock<GlobalRef>`,
`IS_RUNNING : AtomicBool` and `CLIENT_STATE : OnceLock<Mutex<Option<ClientHandle>>>`.
We embed them as one explicit state record `BridgeState`; pointers and class
references are modelled as natural numbers (`0` plays the role of the null
pointer that `AtomicPtr::new(null_mut())` starts from), and the `OnceLock` /
`Mutex<Option _>` cells as `Option` fields.  Ghost counters (`spawnCount`,
`txSendCount`, `joinCount`) count thread spawns, sends on the one-shot
shutdown channel, and joins of the execution thread; the source performs these
as side effects.

Fallible JNI operations (`get_string`, `get_array_length`,
`get_array_elements`, `get_object_array_element`, `attach_current_thread`,
`call_static_method`, `JValue::z`) are embedded as `Option` / `Except`-valued
inputs supplied by the caller, mirroring exactly which failure is mapped to
which status code in the source.  The external host/port parser
`parse_host_port_parts` (crate `slipstream-core`, not part of this
repository's sources) is a parameter `parse : String → Nat → Option HostPort`:
the code only pattern-matches on its success or failure.

Machine integers: `jint` is `i32`; `port as u16` truncates to the low 16 bits
of the two's complement representation, which on mathematical integers is
`(·.emod 65536).toNat`; `keep_alive_interval as usize` on a 64-bit target is
`(·.emod (2 ^ 64)).toNat`; `jboolean` is a `u8` compared against
`JNI_FALSE = 0`.
-/

/-- Result of the external parser `parse_host_port_parts` (an opaque,
validated host/port pair from the code's point of view; the bridge only
stores it into `ResolverSpec.resolver`). -/
structure HostPort where
  host : String
  port : Nat
deriving DecidableEq, Repr

/-- `ResolverMode` from `slipstream_ffi` as used in `android.rs`. -/
inductive ResolverMode where
  | Recursive
  | Authoritative
deriving DecidableEq, Repr

/-- `ResolverSpec { resolver, mode }` from `slipstream_ffi` as built in the
resolver loop of `nativeStartSlipstreamClient`. -/
structure ResolverSpec where
  resolver : HostPort
  mode : ResolverMode
deriving DecidableEq, Repr

/-- `ClientConfig` exactly as assembled in the spawned session thread
(lines 399-410).  `cert` is always `None` on Android. -/
structure ClientConfig where
  tcp_listen_host : String
  tcp_listen_port : Nat
  resolvers : List ResolverSpec
  domain : String
  cert : Option Unit
  congestion_control : Option String
  gso : Bool
  keep_alive_interval : Nat
  debug_poll : Bool
  debug_streams : Bool
deriving DecidableEq, Repr

/-- `ClientHandle { shutdown_tx : Option<oneshot::Sender<()>>,
thread_handle : Option<JoinHandle<()>> }`.  The sender and the join handle
are single-use resources; we record only their presence. -/
structure ClientHandle where
  shutdown_tx : Option Unit
  thread_handle : Option Unit
deriving DecidableEq, Repr

/-- The process-wide mutable state of `android.rs`:
`JAVA_VM` (0 = null), `BRIDGE_CLASS`, `IS_RUNNING`, `CLIENT_STATE`,
plus ghost counters for spawned session threads, shutdown sends and joins. -/
structure BridgeState where
  javaVM : Nat
  bridgeClass : Option Nat
  isRunning : Bool
  clientState : Option ClientHandle
  spawnCount : Nat
  txSendCount : Nat
  joinCount : Nat
deriving DecidableEq, Repr

/-- The state at library load: null `JAVA_VM`, empty `BRIDGE_CLASS`,
`IS_RUNNING = false`, empty session slot. -/
def initBridgeState : BridgeState :=
  { javaVM := 0
    bridgeClass := none
    isRunning := false
    clientState := none
    spawnCount := 0
    txSendCount := 0
    joinCount := 0 }

/-- Rust `as u16` on an `i32` value: truncation to the low 16 bits of the
two's complement representation. -/
def toU16 (i : Int) : Nat :=
  (i.emod 65536).toNat

/-- Rust `as usize` on an `i32` value on a 64-bit target: sign extension
reinterpreted, i.e. reduction modulo `2 ^ 64`. -/
def toUsize (i : Int) : Nat :=
  (i.emod (2 ^ 64)).toNat

/-- The spec's `record_handle`: `JAVA_VM.store(vm, Ordering::SeqCst)` in
`JNI_OnLoad` (line 30).  An `AtomicPtr` store overwrites unconditionally. -/
def record_handle (vm : Nat) (s : BridgeState) : BridgeState :=
  { s with javaVM := vm }

/-- The spec's `record_callback_target`: `BRIDGE_CLASS.set(global_ref)` in
`JNI_OnLoad` (line 42).  `OnceLock::set` succeeds only on the first call;
later calls leave the stored value untouched. -/
def record_callback_target (c : Nat) (s : BridgeState) : BridgeState :=
  match s.bridgeClass with
  | some _ => s
  | none => { s with bridgeClass := some c }

/-- `JNI_OnLoad`: store the VM handle, then, when wrapping the raw pointer,
obtaining an env, `find_class` and `new_global_ref` all succeed (collapsed
into the `found` argument), cache the bridge class. -/
def JNI_OnLoad (vm : Nat) (found : Option Nat) (s : BridgeState) : BridgeState :=
  let s1 := record_handle vm s
  match found with
  | some c => record_callback_target c s1
  | none => s1

/-- The spec's `get_handle()`: `JAVA_VM.load` (0 = unset/null). -/
def get_handle (s : BridgeState) : Nat :=
  s.javaVM

/-- The spec's `get_callback_target()`: `BRIDGE_CLASS.get()`. -/
def get_callback_target (s : BridgeState) : Option Nat :=
  s.bridgeClass

/-- Result of `jvalue.z()` — conversion of the JNI call result to a
boolean, which can fail. -/
structure PJValue where
  z : Except Unit Bool

/-- Environment oracle for one `protect_socket` call: outcomes of the
fallible JNI operations it performs, in program order. -/
structure ProtectEnv where
  from_raw_ok : Bool
  attach_ok : Bool
  pending_before : Bool
  call_result : Except Unit PJValue
  pending_after : Bool

/-- `protect_socket(fd)` (lines 98-191).  Returns the boolean result together
with the number of invocations of the host callback `protectSocket`
(the single `call_static_method` at line 148).  The exception checks and
clears before and after the call affect only logging, not the result. -/
def protect_socket (s : BridgeState) (env : ProtectEnv) (_fd : Int) : Bool × Nat :=
  if s.javaVM = 0 then
    (false, 0)
  else
    match s.bridgeClass with
    | none => (false, 0)
    | some _bridge_class =>
      if env.from_raw_ok = false then
        (false, 0)
      else if env.attach_ok = false then
        (false, 0)
      else
        match env.call_result with
        | Except.error _ => (false, 1)
        | Except.ok jvalue =>
          match jvalue.z with
          | Except.error _ => (false, 1)
          | Except.ok p => (p, 1)
/- `fd` is passed through to the callback and does not influence control
flow; it is kept as an argument for faithfulness. -/

/-- One entry of the `resolver_hosts` object array as seen by the loop at
lines 311-362: fetching the array element can fail (code -4), converting it
to a Rust string can fail (code -5), or it yields a host string. -/
inductive HostEntry where
  | elemErr
  | strErr
  | ok (s : String)
deriving DecidableEq, Repr

/-- The resolver-building loop of `nativeStartSlipstreamClient`
(lines 310-362).  `i` is the running loop index; `ports` and `auths` are the
already-extracted `ports`/`authoritative` vectors, read with
`ports.get(i).copied().unwrap_or(53) as u16` and
`authoritative.get(i).copied().unwrap_or(false)`. -/
def buildResolvers (parse : String → Nat → Option HostPort) :
    List HostEntry → List Int → List Bool → Nat → Except Int (List ResolverSpec)
  | [], _, _, _ => Except.ok []
  | e :: rest, ports, auths, i =>
    match e with
    | HostEntry.elemErr => Except.error (-4)
    | HostEntry.strErr => Except.error (-5)
    | HostEntry.ok host_str =>
      let port : Nat := toU16 (ports.getD i 53)
      let is_authoritative : Bool := auths.getD i false
      match parse host_str port with
      | none => Except.error (-6)
      | some host_port =>
        let mode := if is_authoritative then ResolverMode.Authoritative
                    else ResolverMode.Recursive
        match buildResolvers parse rest ports auths (i + 1) with
        | Except.error c => Except.error c
        | Except.ok rs => Except.ok ({ resolver := host_port, mode := mode } :: rs)

/-- The raw arguments of `nativeStartSlipstreamClient` after the JNI
boundary.  `Option` fields model the fallible marshaling operations:
`domain`/`listenHost` via `get_string` (failure code -1), the congestion
control string via `get_string` (failure code -7), `resolverHosts` via
`get_array_length` (failure code -2) with per-entry failures inside
`HostEntry`, `resolverPorts` via `get_array_elements` (failure code -3),
`resolverAuth` via `get_array_elements` (failure code -2).  The numeric
arguments are the raw `jint`/`jboolean` values. -/
structure StartArgs where
  domain : Option String
  listenHost : Option String
  congestionControl : Option String
  resolverHosts : Option (List HostEntry)
  resolverPorts : Option (List Int)
  resolverAuth : Option (List Bool)
  listenPort : Int
  keepAliveInterval : Int
  gsoEnabled : Nat
  debugPoll : Nat
  debugStreams : Nat
deriving DecidableEq, Repr

/-- `nativeStartSlipstreamClient` (lines 215-462), sequential model.
`parse` is the external `parse_host_port_parts`; `dies` tells whether the
spawned session thread terminates (storing `IS_RUNNING = false`) within the
100 ms grace window before the liveness re-check at line 455.  Returns the
status code, the final state and, when a session thread was spawned, the
`ClientConfig` handed to it. -/
def Java_app_slipnet_tunnel_SlipstreamBridge_nativeStartSlipstreamClient
    (parse : String → Nat → Option HostPort) (args : StartArgs) (dies : Bool)
    (s : BridgeState) : Int × BridgeState × Option ClientConfig :=
  if s.isRunning then
    (-10, s, none)
  else
    match args.domain with
    | none => (-1, s, none)
    | some domain_str =>
    match args.listenHost with
    | none => (-1, s, none)
    | some listen_host_str =>
    match args.congestionControl with
    | none => (-7, s, none)
    | some cc_raw =>
    let congestion_control_str : Option String :=
      if cc_raw.isEmpty then none else some cc_raw
    match args.resolverHosts with
    | none => (-2, s, none)
    | some hosts =>
    match args.resolverPorts with
    | none => (-3, s, none)
    | some ports =>
    match args.resolverAuth with
    | none => (-2, s, none)
    | some auths =>
    match buildResolvers parse hosts ports auths 0 with
    | Except.error c => (c, s, none)
    | Except.ok resolvers =>
    if resolvers.isEmpty then
      (-2, s, none)
    else
      let listen_port_u16 := toU16 args.listenPort
      let keep_alive_ms := toUsize args.keepAliveInterval
      let gso := args.gsoEnabled != 0
      let debug_poll_flag := args.debugPoll != 0
      let debug_streams_flag := args.debugStreams != 0
      let config : ClientConfig :=
        { tcp_listen_host := listen_host_str
          tcp_listen_port := listen_port_u16
          resolvers := resolvers
          domain := domain_str
          cert := none
          congestion_control := congestion_control_str
          gso := gso
          keep_alive_interval := keep_alive_ms
          debug_poll := debug_poll_flag
          debug_streams := debug_streams_flag }
      let s1 := { s with isRunning := true }
      let s2 := { s1 with spawnCount := s1.spawnCount + 1 }
      let new_handle : ClientHandle := { shutdown_tx := some (), thread_handle := some () }
      let s3 := { s2 with clientState := some new_handle }
      let s4 := if dies then { s3 with isRunning := false } else s3
      if s4.isRunning then (0, s4, some config) else (-11, s4, some config)

/-- `nativeStopSlipstreamClient` (lines 466-515), sequential model.
`state.take()` empties the slot first; the wait loop only reads
`IS_RUNNING` and is timing-only, so it has no state effect here; the send
on the shutdown channel and the join are recorded in the ghost counters;
`IS_RUNNING.store(false)` closes the stored-handle branch. -/
def Java_app_slipnet_tunnel_SlipstreamBridge_nativeStopSlipstreamClient
    (s : BridgeState) : BridgeState :=
  match s.clientState with
  | none => s
  | some handle =>
    let s1 := { s with clientState := none }
    let s2 :=
      match handle.shutdown_tx with
      | some _ => { s1 with txSendCount := s1.txSendCount + 1 }
      | none => s1
    let s3 :=
      match handle.thread_handle with
      | some _ => { s2 with joinCount := s2.joinCount + 1 }
      | none => s2
    { s3 with isRunning := false }

/-- `nativeIsClientRunning` (lines 519-528): lock-free read of
`IS_RUNNING`. -/
def Java_app_slipnet_tunnel_SlipstreamBridge_nativeIsClientRunning
    (s : BridgeState) : Bool :=
  s.isRunning

/-!
Interleaving model for two concurrent invocations of
`nativeStartSlipstreamClient` (claim C1).  Each invocation's shared-state
accesses, in source order, are: the `IS_RUNNING.load` check (line 236), the
`IS_RUNNING.store(true)` (line 390), the `thread::spawn` (line 398), the
store of the `ClientHandle` into the slot (lines 443-449), and the grace
re-check `IS_RUNNING.load` (line 455).  Argument marshaling between the
check and the store is thread-local and has no shared effect.  A `Phase`
records the next shared action of one invocation (or how it finished); a
scheduler event runs one atomic action of invocation `a`, invocation `b`,
or lets an already-spawned session thread exit (its `IS_RUNNING.store(false)`
at line 438).
-/

/-- Program counter of one `start()` invocation in the interleaving model:
the next shared-state action it will perform, or how it returned
(`doneAlready` = -10 at the initial check, `doneOk` = 0, `doneFail` = -11 at
the grace re-check). -/
inductive Phase where
  | atCheck
  | atStore
  | atSpawn
  | atSlot
  | atGrace
  | doneAlready
  | doneOk
  | doneFail
deriving DecidableEq, Fintype, Repr

/-- Whether this invocation has already executed `IS_RUNNING.store(true)`
(line 390). -/
def storedPh : Phase → Bool
  | Phase.atSpawn | Phase.atSlot | Phase.atGrace | Phase.doneOk | Phase.doneFail => true
  | _ => false

/-- Whether this invocation has already executed `thread::spawn`
(line 398). -/
def spawnedPh : Phase → Bool
  | Phase.atSlot | Phase.atGrace | Phase.doneOk | Phase.doneFail => true
  | _ => false

/-- Whether this invocation has returned. -/
def donePh : Phase → Bool
  | Phase.doneAlready | Phase.doneOk | Phase.doneFail => true
  | _ => false

/-- The status code an invocation returned, if it has returned. -/
def retOf : Phase → Option Int
  | Phase.doneAlready => some (-10)
  | Phase.doneOk => some 0
  | Phase.doneFail => some (-11)
  | _ => none

/-- Shared state for the two-invocation race: `IS_RUNNING` and the phase of
each invocation.  (The session slot is not tracked: the claim is about
spawn counts and return codes.) -/
structure CState where
  running : Bool
  a : Phase
  b : Phase
deriving DecidableEq, Fintype, Repr

/-- Scheduler events: one atomic action of invocation `a`, of invocation
`b`, or a spawned session thread exiting. -/
inductive Ev where
  | a
  | b
  | die
deriving DecidableEq, Fintype, Repr

/-- One atomic action of a single invocation at phase `p` against flag
`running`: returns the new phase and the new flag. -/
def phaseStep (p : Phase) (running : Bool) : Phase × Bool :=
  match p with
  | Phase.atCheck => if running then (Phase.doneAlready, running) else (Phase.atStore, running)
  | Phase.atStore => (Phase.atSpawn, true)
  | Phase.atSpawn => (Phase.atSlot, running)
  | Phase.atSlot => (Phase.atGrace, running)
  | Phase.atGrace => if running then (Phase.doneOk, running) else (Phase.doneFail, running)
  | p => (p, running)

/-- One scheduler step.  A `die` event models a spawned session thread
finishing and storing `IS_RUNNING = false` (line 438); it requires that some
session thread has been spawned. -/
def cstep (s : CState) (e : Ev) : CState :=
  match e with
  | Ev.a =>
    let r := phaseStep s.a s.running
    { s with a := r.1, running := r.2 }
  | Ev.b =>
    let r := phaseStep s.b s.running
    { s with b := r.1, running := r.2 }
  | Ev.die =>
    if spawnedPh s.a || spawnedPh s.b then { s with running := false } else s

/-- Run a schedule from a state. -/
def crun (sched : List Ev) (s : CState) : CState :=
  sched.foldl cstep s

/-- Both invocations poised at their initial `IS_RUNNING` check, flag
clear. -/
def cinit : CState :=
  { running := false, a := Phase.atCheck, b := Phase.atCheck }

/-- Total number of session threads spawned by the two invocations. -/
def totalSpawned (s : CState) : Nat :=
  (if spawnedPh s.a then 1 else 0) + (if spawnedPh s.b then 1 else 0)

/-- Invariant of the race model: the flag is only up once someone has
stored it, and an invocation that returned -10 saw the other invocation's
store. -/
def CInv (s : CState) : Prop :=
  (s.running = true → storedPh s.a = true ∨ storedPh s.b = true)
  ∧ (s.a = Phase.doneAlready → storedPh s.b = true)
  ∧ (s.b = Phase.doneAlready → storedPh s.a = true)

instance (s : CState) : Decidable (CInv s) := by
  unfold CInv
  infer_instance

set_option maxRecDepth 100000 in
lemma cstep_preserves_CInv : ∀ s : CState, ∀ e : Ev, CInv s → CInv (cstep s e) := by
  decide

lemma crun_preserves_CInv (sched : List Ev) (s : CState) (h : CInv s) :
    CInv (crun sched s) := by
  induction sched generalizing s with
  | nil => exact h
  | cons e rest ih => exact ih (cstep s e) (cstep_preserves_CInv s e h)

lemma cinit_CInv : CInv cinit := by
  decide

set_option maxRecDepth 100000 in
lemma CInv_final_shape : ∀ s : CState, CInv s →
    ((s.a = Phase.doneAlready → donePh s.b = true → totalSpawned s = 1)
      ∧ (s.b = Phase.doneAlready → donePh s.a = true → totalSpawned s = 1)
      ∧ (retOf s.a = some (-10) → spawnedPh s.a = false)
      ∧ (retOf s.b = some (-10) → spawnedPh s.b = false)
      ∧ totalSpawned s ≤ 2) := by
  decide

/-!
Concrete sample inputs used by the witness theorems below.
-/

/-- A host/port parser that accepts every input, returning it unchanged. -/
def parseEcho : String → Nat → Option HostPort :=
  fun h p => some { host := h, port := p }

/-- A host/port parser that rejects every input. -/
def parseNone : String → Nat → Option HostPort :=
  fun _ _ => none

/-- The spec's end-to-end sample call: domain `tunnel.example`, one recursive
resolver `1.1.1.1:53`, listen on `127.0.0.1:1080`, default congestion
control, 25000 ms keep-alive, all debug flags off. -/
def sampleArgs : StartArgs :=
  { domain := some "tunnel.example"
    listenHost := some "127.0.0.1"
    congestionControl := some ""
    resolverHosts := some [HostEntry.ok "1.1.1.1"]
    resolverPorts := some [53]
    resolverAuth := some [false]
    listenPort := 1080
    keepAliveInterval := 25000
    gsoEnabled := 0
    debugPoll := 0
    debugStreams := 0 }

/-- Sample arguments with an empty resolver list. -/
def emptyResolverArgs : StartArgs :=
  { sampleArgs with resolverHosts := some [], resolverPorts := some [], resolverAuth := some [] }

/-- Sample arguments with a single unparsable resolver host. -/
def badResolverArgs : StartArgs :=
  { sampleArgs with resolverHosts := some [HostEntry.ok "bad"] }

/-- Sample arguments with a non-empty congestion-control string. -/
def ccResolverArgs : StartArgs :=
  { sampleArgs with congestionControl := some "bbr" }

/-- Sample arguments with out-of-range port values: listen port 70000 and
resolver port -1, both outside the `u16` range. -/
def oorArgs : StartArgs :=
  { sampleArgs with listenPort := 70000, resolverPorts := some [-1] }

/-- A state in which a session is already running. -/
def runningState : BridgeState :=
  { initBridgeState with isRunning := true }

/-- A state holding a full session handle, as left by a successful start. -/
def stoppableState : BridgeState :=
  { initBridgeState with
      isRunning := true
      clientState := some { shutdown_tx := some (), thread_handle := some () }
      spawnCount := 1 }

/-- A protect-call environment in which every JNI operation succeeds and the
host callback returns true. -/
def sampleEnv : ProtectEnv :=
  { from_raw_ok := true
    attach_ok := true
    pending_before := false
    call_result := Except.ok { z := Except.ok true }
    pending_after := false }

/-- The double-spawn schedule: both invocations pass the initial
`IS_RUNNING` check before either stores the flag, then each runs to
completion. -/
def raceSched : List Ev :=
  [Ev.a, Ev.b, Ev.a, Ev.a, Ev.a, Ev.a, Ev.b, Ev.b, Ev.b, Ev.b]

/-- A serialized schedule: invocation `a` runs to completion, then
invocation `b` performs its initial check. -/
def serialSched : List Ev :=
  [Ev.a, Ev.a, Ev.a, Ev.a, Ev.a, Ev.b]

/-!
Helper lemmas about the resolver-marshaling loop and the successful path of
`nativeStartSlipstreamClient`.
-/

lemma buildResolvers_ok (parse : String → Nat → Option HostPort)
    (strs : List String) (ports : List Int) (auths : List Bool) :
    ∀ k : Nat,
      (∀ i (h : i < strs.length),
        (parse (strs.get ⟨i, h⟩) (toU16 (ports.getD (k + i) 53))).isSome = true) →
      ∃ rs, buildResolvers parse (strs.map HostEntry.ok) ports auths k = Except.ok rs
        ∧ rs.length = strs.length
        ∧ ∀ i, rs.get? i = (strs.get? i).bind (fun str =>
            (parse str (toU16 (ports.getD (k + i) 53))).map (fun hp =>
              ({ resolver := hp,
                 mode := if auths.getD (k + i) false then ResolverMode.Authoritative
                         else ResolverMode.Recursive } : ResolverSpec))) := by
  induction strs with
  | nil =>
    intro k _
    exact ⟨[], rfl, rfl, fun i => by simp⟩
  | cons str rest ih =>
    intro k hparse
    have h0 : (parse str (toU16 (ports.getD k 53))).isSome = true := by
      simpa using hparse 0 (by simp)
    obtain ⟨hp, hhp⟩ := Option.isSome_iff_exists.mp h0
    have hhp2 : parse str (toU16 (ports[k]?.getD 53)) = some hp := by
      simpa [List.getD_eq_getElem?_getD] using hhp
    obtain ⟨rs, hrs, hlen, hget⟩ := ih (k + 1) (fun i hi => by
      have h2 := hparse (i + 1) (by simpa using Nat.succ_lt_succ hi)
      have hidx : k + (i + 1) = k + 1 + i := by omega
      simpa [hidx] using h2)
    refine ⟨({ resolver := hp,
               mode := if auths.getD k false then ResolverMode.Authoritative
                       else ResolverMode.Recursive } : ResolverSpec) :: rs,
            ?_, by simp [hlen], ?_⟩
    · simp [buildResolvers, hhp2, hrs]
    · intro i
      cases i with
      | zero => simp [hhp2]
      | succ j =>
        have hj := hget j
        have hidx : k + 1 + j = k + (j + 1) := by omega
        simpa [hidx] using hj

lemma buildResolvers_parse_fail (parse : String → Nat → Option HostPort)
    (hosts : List HostEntry) (ports : List Int) (auths : List Bool) :
    ∀ k : Nat,
      (∀ e ∈ hosts, ∃ str, e = HostEntry.ok str) →
      (∃ i str, hosts.get? i = some (HostEntry.ok str)
        ∧ parse str (toU16 (ports.getD (k + i) 53)) = none) →
      buildResolvers parse hosts ports auths k = Except.error (-6) := by
  induction hosts with
  | nil =>
    intro k _ hfail
    obtain ⟨i, str, hi, _⟩ := hfail
    simp at hi
  | cons e rest ih =>
    intro k hok hfail
    obtain ⟨str0, rfl⟩ := hok e (by simp)
    cases hp0 : parse str0 (toU16 (ports.getD k 53)) with
    | none =>
      have hp02 : parse str0 (toU16 (ports[k]?.getD 53)) = none := by
        simpa [List.getD_eq_getElem?_getD] using hp0
      simp [buildResolvers, hp02]
    | some hpv =>
      have hfail2 : ∃ i str, rest.get? i = some (HostEntry.ok str)
          ∧ parse str (toU16 (ports.getD (k + 1 + i) 53)) = none := by
        obtain ⟨i, str, hi, hnone⟩ := hfail
        cases i with
        | zero =>
          exfalso
          simp at hi
          subst hi
          rw [Nat.add_zero, hp0] at hnone
          exact Option.some_ne_none hpv hnone
        | succ j =>
          refine ⟨j, str, by simpa using hi, ?_⟩
          have hidx : k + 1 + j = k + (j + 1) := by omega
          rw [hidx]
          exact hnone
      have hrec := ih (k + 1) (fun e2 he2 => hok e2 (by simp [he2])) hfail2
      have hp02 : parse str0 (toU16 (ports[k]?.getD 53)) = some hpv := by
        simpa [List.getD_eq_getElem?_getD] using hp0
      simp [buildResolvers, hp02, hrec]

lemma start_success_spec
    (parse : String → Nat → Option HostPort) (args : StartArgs) (dies : Bool)
    (s : BridgeState) (d lh cc : String) (strs : List String)
    (ports : List Int) (auths : List Bool)
    (hrun : s.isRunning = false)
    (hd : args.domain = some d) (hl : args.listenHost = some lh)
    (hc : args.congestionControl = some cc)
    (hh : args.resolverHosts = some (strs.map HostEntry.ok))
    (hpp : args.resolverPorts = some ports)
    (ha : args.resolverAuth = some auths)
    (hne : strs ≠ [])
    (hparse : ∀ i (h : i < strs.length),
      (parse (strs.get ⟨i, h⟩) (toU16 (ports.getD i 53))).isSome = true) :
    ∃ rs, buildResolvers parse (strs.map HostEntry.ok) ports auths 0 = Except.ok rs
      ∧ rs.length = strs.length
      ∧ (∀ i, rs.get? i = (strs.get? i).bind (fun str =>
          (parse str (toU16 (ports.getD i 53))).map (fun hp =>
            ({ resolver := hp,
               mode := if auths.getD i false then ResolverMode.Authoritative
                       else ResolverMode.Recursive } : ResolverSpec))))
      ∧ Java_app_slipnet_tunnel_SlipstreamBridge_nativeStartSlipstreamClient
            parse args dies s =
          (if dies then -11 else 0,
           { s with isRunning := !dies,
                    spawnCount := s.spawnCount + 1,
                    clientState := some { shutdown_tx := some (), thread_handle := some () } },
           some { tcp_listen_host := lh
                  tcp_listen_port := toU16 args.listenPort
                  resolvers := rs
                  domain := d
                  cert := none
                  congestion_control := if cc.isEmpty then none else some cc
                  gso := args.gsoEnabled != 0
                  keep_alive_interval := toUsize args.keepAliveInterval
                  debug_poll := args.debugPoll != 0
                  debug_streams := args.debugStreams != 0 }) := by
  obtain ⟨rs, hrs, hlen, hget⟩ :=
    buildResolvers_ok parse strs ports auths 0 (by simpa using hparse)
  refine ⟨rs, hrs, hlen, by simpa using hget, ?_⟩
  have hrs_ne : rs.isEmpty = false := by
    cases rs with
    | nil =>
      exfalso
      exact hne (List.length_eq_zero.mp hlen.symm)
    | cons x xs => rfl
  cases dies with
  | false =>
    simp [Java_app_slipnet_tunnel_SlipstreamBridge_nativeStartSlipstreamClient,
      hrun, hd, hl, hc, hh, hpp, ha, hrs, hrs_ne]
  | true =>
    simp [Java_app_slipnet_tunnel_SlipstreamBridge_nativeStartSlipstreamClient,
      hrun, hd, hl, hc, hh, hpp, ha, hrs, hrs_ne]

/-!
Claim theorems.
-/

/-- C1 (counterexample): the claim that any two concurrent `start()`
invocations spawn exactly one session thread, with the other invocation
returning -10, is false.  Under the schedule `raceSched`, in which both
invocations execute the `IS_RUNNING` check at line 236 before either
executes the store at line 390, both invocations spawn a session thread
and both return success. -/
theorem C1_counterexample :
    totalSpawned (crun raceSched cinit) = 2
    ∧ retOf (crun raceSched cinit).a = some 0
    ∧ retOf (crun raceSched cinit).b = some 0 := by
  decide

/-- C1 (amended): for every interleaving of two concurrent `start()`
invocations (including session threads exiting at any point), an invocation
that returns -10 spawned no thread, and whenever one invocation returns -10
and the other completes, exactly one session thread was spawned in total;
however the initial check and the `RunningFlag` store are not atomic, so at
most two — not always one — session threads are spawned. -/
theorem C1_double_start_race (sched : List Ev) :
    ((crun sched cinit).a = Phase.doneAlready → donePh (crun sched cinit).b = true →
      totalSpawned (crun sched cinit) = 1)
    ∧ ((crun sched cinit).b = Phase.doneAlready → donePh (crun sched cinit).a = true →
      totalSpawned (crun sched cinit) = 1)
    ∧ (retOf (crun sched cinit).a = some (-10) → spawnedPh (crun sched cinit).a = false)
    ∧ (retOf (crun sched cinit).b = some (-10) → spawnedPh (crun sched cinit).b = false)
    ∧ totalSpawned (crun sched cinit) ≤ 2 :=
  CInv_final_shape (crun sched cinit) (crun_preserves_CInv sched cinit cinit_CInv)

/-- C1 (witness): under the serialized schedule, invocation `b` observes the
already-running flag and exactly one session thread is spawned. -/
theorem C1_double_start_race_witness :
    totalSpawned (crun serialSched cinit) = 1 :=
  (C1_double_start_race serialSched).2.1 (by decide) (by decide)

/-- C2: whenever `start()` is called while `IS_RUNNING` is true, it returns
-10, spawns no thread and leaves the entire module state — the running
flag, the session slot and the registry (`JAVA_VM`, `BRIDGE_CLASS`) —
unchanged: the state out equals the state in and no config is produced. -/
theorem C2_start_while_running
    (parse : String → Nat → Option HostPort) (args : StartArgs) (dies : Bool)
    (s : BridgeState) (h : s.isRunning = true) :
    Java_app_slipnet_tunnel_SlipstreamBridge_nativeStartSlipstreamClient
        parse args dies s = (-10, s, none) := by
  simp [Java_app_slipnet_tunnel_SlipstreamBridge_nativeStartSlipstreamClient, h]

/-- C2 (witness): the sample call against a running state returns -10 and
changes nothing. -/
theorem C2_start_while_running_witness :
    Java_app_slipnet_tunnel_SlipstreamBridge_nativeStartSlipstreamClient
        parseEcho sampleArgs false runningState = (-10, runningState, none) :=
  C2_start_while_running parseEcho sampleArgs false runningState rfl

/-- C3: `protect_socket` performs at most one invocation of the host
callback per call; when the VM handle or the cached bridge class is unset
it returns false immediately with zero callback invocations; and every
internal failure (wrapping the raw VM pointer, attaching the thread, the
callback call itself, or the boolean conversion of its result) yields
false.  Totality of the Lean function reflects that no path raises. -/
theorem C3_protect_contract (s : BridgeState) (env : ProtectEnv) (fd : Int) :
    (protect_socket s env fd).2 ≤ 1
    ∧ (s.javaVM = 0 ∨ s.bridgeClass = none → protect_socket s env fd = (false, 0))
    ∧ ((env.from_raw_ok = false ∨ env.attach_ok = false
        ∨ env.call_result = Except.error ()
        ∨ (∃ jv, env.call_result = Except.ok jv ∧ jv.z = Except.error ()))
      → (protect_socket s env fd).1 = false) := by
  rcases env with ⟨fro, att, pb, cr, pa⟩
  by_cases hvm : s.javaVM = 0
  · rcases hbc : s.bridgeClass with _ | c <;> simp [protect_socket, hvm, hbc]
  · rcases hbc : s.bridgeClass with _ | c
    · simp [protect_socket, hvm, hbc]
    · cases fro
      · simp [protect_socket, hvm, hbc]
      · cases att
        · simp [protect_socket, hvm, hbc]
        · rcases cr with e | jv
          · simp [protect_socket, hvm, hbc]
          · rcases jv with ⟨z⟩
            rcases z with e2 | p
            · simp [protect_socket, hvm, hbc]
            · simp [protect_socket, hvm, hbc]

/-- C3 (witness): before load-time initialization (`initBridgeState`), a
protect call returns false with zero callback invocations even when every
later JNI operation would succeed. -/
theorem C3_protect_contract_witness :
    protect_socket initBridgeState sampleEnv 7 = (false, 0) :=
  (C3_protect_contract initBridgeState sampleEnv 7).2.1 (Or.inl rfl)

/-- C4 (counterexample): `record_handle` is not first-write-wins — a second
call is not a no-op: storing handle 2 after handle 1 changes the state,
because `JAVA_VM.store` overwrites unconditionally. -/
theorem C4_counterexample :
    record_handle 2 (record_handle 1 initBridgeState)
      ≠ record_handle 1 initBridgeState := by
  decide

/-- C4 (amended): `record_callback_target` succeeds at most once with first
write winning — any later call is a no-op and the first value stays
readable; `record_handle` instead overwrites unconditionally (last write
wins, though the loader calls it once); both values are readable through
`get_handle` / `get_callback_target` afterward. -/
theorem C4_registry_write_once (v w c c2 : Nat) (s : BridgeState)
    (hnone : s.bridgeClass = none) :
    record_callback_target c2 (record_callback_target c s) = record_callback_target c s
    ∧ (record_callback_target c s).bridgeClass = some c
    ∧ get_callback_target (record_callback_target c s) = some c
    ∧ (record_handle v s).javaVM = v
    ∧ (record_handle w (record_handle v s)).javaVM = w
    ∧ get_handle (record_handle v s) = v := by
  simp [record_callback_target, record_handle, get_handle, get_callback_target, hnone]

/-- C4 (witness): the amended registry property at concrete values, from
the load state. -/
theorem C4_registry_write_once_witness :
    record_callback_target 6 (record_callback_target 5 initBridgeState)
        = record_callback_target 5 initBridgeState
    ∧ (record_callback_target 5 initBridgeState).bridgeClass = some 5
    ∧ get_callback_target (record_callback_target 5 initBridgeState) = some 5
    ∧ (record_handle 1 initBridgeState).javaVM = 1
    ∧ (record_handle 2 (record_handle 1 initBridgeState)).javaVM = 2
    ∧ get_handle (record_handle 1 initBridgeState) = 1 :=
  C4_registry_write_once 1 2 5 6 initBridgeState rfl

/-- C5: with no session running and the earlier marshaling steps
succeeding, an empty resolver list makes `start()` return -2, and a
resolver entry whose host string fails host/port parsing makes it return
-6; in both cases the state is returned unchanged (flag still false, slot
untouched, no thread spawned) and no config is produced. -/
theorem C5_invalid_resolver_config
    (parse : String → Nat → Option HostPort) (args : StartArgs) (dies : Bool)
    (s : BridgeState) (d lh cc : String) (hosts : List HostEntry)
    (ports : List Int) (auths : List Bool)
    (hrun : s.isRunning = false)
    (hd : args.domain = some d) (hl : args.listenHost = some lh)
    (hc : args.congestionControl = some cc)
    (hh : args.resolverHosts = some hosts)
    (hpp : args.resolverPorts = some ports)
    (ha : args.resolverAuth = some auths) :
    (hosts = [] →
      Java_app_slipnet_tunnel_SlipstreamBridge_nativeStartSlipstreamClient
          parse args dies s = (-2, s, none))
    ∧ ((∀ e ∈ hosts, ∃ str, e = HostEntry.ok str) →
       (∃ i str, hosts.get? i = some (HostEntry.ok str)
          ∧ parse str (toU16 (ports.getD i 53)) = none) →
       Java_app_slipnet_tunnel_SlipstreamBridge_nativeStartSlipstreamClient
          parse args dies s = (-6, s, none)) := by
  constructor
  · intro hnil
    subst hnil
    simp [Java_app_slipnet_tunnel_SlipstreamBridge_nativeStartSlipstreamClient,
      hrun, hd, hl, hc, hh, hpp, ha, buildResolvers]
  · intro hok hfail
    have hb := buildResolvers_parse_fail parse hosts ports auths 0 hok (by simpa using hfail)
    simp [Java_app_slipnet_tunnel_SlipstreamBridge_nativeStartSlipstreamClient,
      hrun, hd, hl, hc, hh, hpp, ha, hb]

/-- C5 (witness): concrete calls with an empty resolver list and with a
rejected resolver host string, from the load state. -/
theorem C5_invalid_resolver_config_witness :
    Java_app_slipnet_tunnel_SlipstreamBridge_nativeStartSlipstreamClient
        parseNone emptyResolverArgs false initBridgeState = (-2, initBridgeState, none)
    ∧ Java_app_slipnet_tunnel_SlipstreamBridge_nativeStartSlipstreamClient
        parseNone badResolverArgs false initBridgeState = (-6, initBridgeState, none) :=
  ⟨(C5_invalid_resolver_config parseNone emptyResolverArgs false initBridgeState
      "tunnel.example" "127.0.0.1" "" [] [] [] rfl rfl rfl rfl rfl rfl rfl).1 rfl,
   (C5_invalid_resolver_config parseNone badResolverArgs false initBridgeState
      "tunnel.example" "127.0.0.1" "" [HostEntry.ok "bad"] [53] [false]
      rfl rfl rfl rfl rfl rfl rfl).2
     (fun e he => ⟨"bad", by simpa using he⟩)
     ⟨0, "bad", rfl, rfl⟩⟩

/-- C6: `stop()` is idempotent.  With an empty session slot it is the
identity on the state (so the flag stays false if it was false, and nothing
raises — the Lean function is total); it always leaves the slot empty;
running it twice equals running it once; and when a handle is stored it
forces the running flag to false while consuming the shutdown sender and
the join handle at most once each. -/
theorem C6_stop_idempotent (s : BridgeState) (h : ClientHandle) :
    (s.clientState = none →
      Java_app_slipnet_tunnel_SlipstreamBridge_nativeStopSlipstreamClient s = s)
    ∧ (Java_app_slipnet_tunnel_SlipstreamBridge_nativeStopSlipstreamClient s).clientState = none
    ∧ Java_app_slipnet_tunnel_SlipstreamBridge_nativeStopSlipstreamClient
        (Java_app_slipnet_tunnel_SlipstreamBridge_nativeStopSlipstreamClient s)
        = Java_app_slipnet_tunnel_SlipstreamBridge_nativeStopSlipstreamClient s
    ∧ (s.clientState = some h →
        (Java_app_slipnet_tunnel_SlipstreamBridge_nativeStopSlipstreamClient s).isRunning = false
        ∧ (Java_app_slipnet_tunnel_SlipstreamBridge_nativeStopSlipstreamClient s).txSendCount
            ≤ s.txSendCount + 1
        ∧ (Java_app_slipnet_tunnel_SlipstreamBridge_nativeStopSlipstreamClient s).joinCount
            ≤ s.joinCount + 1) := by
  rcases hcs : s.clientState with _ | handle
  · simp [Java_app_slipnet_tunnel_SlipstreamBridge_nativeStopSlipstreamClient, hcs]
  · rcases handle with ⟨tx, th⟩
    rcases tx with _ | u <;> rcases th with _ | v <;>
      simp [Java_app_slipnet_tunnel_SlipstreamBridge_nativeStopSlipstreamClient, hcs,
        Nat.le_succ]

/-- C6 (witness): stopping a state that holds a full session handle clears
the flag and consumes the sender and join handle at most once. -/
theorem C6_stop_idempotent_witness :
    (Java_app_slipnet_tunnel_SlipstreamBridge_nativeStopSlipstreamClient stoppableState).isRunning
        = false
    ∧ (Java_app_slipnet_tunnel_SlipstreamBridge_nativeStopSlipstreamClient
        stoppableState).txSendCount ≤ stoppableState.txSendCount + 1
    ∧ (Java_app_slipnet_tunnel_SlipstreamBridge_nativeStopSlipstreamClient
        stoppableState).joinCount ≤ stoppableState.joinCount + 1 :=
  (C6_stop_idempotent stoppableState
    { shutdown_tx := some (), thread_handle := some () }).2.2.2 rfl

lemma buildResolvers_get_exact (parse : String → Nat → Option HostPort)
    (strs : List String) (ports : List Int) (auths : List Bool)
    (hparse : ∀ i (h : i < strs.length),
      (parse (strs.get ⟨i, h⟩) (toU16 (ports.getD i 53))).isSome = true) :
    ∃ rs, buildResolvers parse (strs.map HostEntry.ok) ports auths 0 = Except.ok rs
      ∧ rs.length = strs.length
      ∧ ∀ i (h : i < strs.length), ∃ hp,
          parse (strs.get ⟨i, h⟩) (toU16 (ports.getD i 53)) = some hp
          ∧ rs.get? i = some { resolver := hp, mode := if auths.getD i false then ResolverMode.Authoritative else ResolverMode.Recursive } := by
  obtain ⟨rs, hrs, hlen, hget⟩ :=
    buildResolvers_ok parse strs ports auths 0 (by simpa using hparse)
  refine ⟨rs, hrs, hlen, ?_⟩
  intro i h
  obtain ⟨hp, hhp⟩ := Option.isSome_iff_exists.mp (hparse i h)
  have hhp2 : parse (strs.get ⟨i, h⟩) (toU16 (ports[i]?.getD 53)) = some hp := by
    simpa [List.getD_eq_getElem?_getD] using hhp
  refine ⟨hp, hhp, ?_⟩
  have hg := hget i
  rw [List.get?_eq_get h] at hg
  simp only [Nat.zero_add] at hg
  rw [hg]
  have hhp3 : parse strs[i] (toU16 (ports[i]?.getD 53)) = some hp := hhp2
  simp [hhp, hhp2, hhp3]

/-- C7: for every resolver-entry list whose host strings all parse, the
assembled resolver list has the same length as the input, preserves the
input order, and maps entry `i` exactly: the parsed host/port value from
host string `i` and port `i` (defaulted and truncated as the code does),
with mode Authoritative when flag `i` is true and Recursive otherwise. -/
theorem C7_resolver_list_exact (parse : String → Nat → Option HostPort)
    (strs : List String) (ports : List Int) (auths : List Bool)
    (hparse : ∀ i (h : i < strs.length),
      (parse (strs.get ⟨i, h⟩) (toU16 (ports.getD i 53))).isSome = true) :
    ∃ rs, buildResolvers parse (strs.map HostEntry.ok) ports auths 0 = Except.ok rs
      ∧ rs.length = strs.length
      ∧ ∀ i (h : i < strs.length), ∃ hp,
          parse (strs.get ⟨i, h⟩) (toU16 (ports.getD i 53)) = some hp
          ∧ rs.get? i = some { resolver := hp, mode := if auths.getD i false then ResolverMode.Authoritative else ResolverMode.Recursive } :=
  buildResolvers_get_exact parse strs ports auths hparse

/-- C7 (witness): the spec's two-resolver example — ("8.8.8.8", 53,
recursive) and ("9.9.9.9", 853, authoritative) — is marshaled exactly. -/
theorem C7_resolver_list_exact_witness :
    ∃ rs, buildResolvers parseEcho
          ((["8.8.8.8", "9.9.9.9"] : List String).map HostEntry.ok)
          [53, 853] [false, true] 0 = Except.ok rs
      ∧ rs.length = (["8.8.8.8", "9.9.9.9"] : List String).length
      ∧ ∀ i (h : i < (["8.8.8.8", "9.9.9.9"] : List String).length), ∃ hp,
          parseEcho ((["8.8.8.8", "9.9.9.9"] : List String).get ⟨i, h⟩)
              (toU16 (([53, 853] : List Int).getD i 53)) = some hp
          ∧ rs.get? i = some { resolver := hp, mode := if ([false, true] : List Bool).getD i false then ResolverMode.Authoritative else ResolverMode.Recursive } :=
  C7_resolver_list_exact parseEcho ["8.8.8.8", "9.9.9.9"] [53, 853] [false, true]
    (by decide)

/-- C8: the congestion-control string is normalized exactly as claimed —
the empty string becomes no override (`none`) and any non-empty string is
passed through verbatim into the assembled `ClientConfig`. -/
theorem C8_congestion_normalization
    (parse : String → Nat → Option HostPort) (args : StartArgs) (dies : Bool)
    (s : BridgeState) (d lh cc : String) (strs : List String)
    (ports : List Int) (auths : List Bool)
    (hrun : s.isRunning = false)
    (hd : args.domain = some d) (hl : args.listenHost = some lh)
    (hc : args.congestionControl = some cc)
    (hh : args.resolverHosts = some (strs.map HostEntry.ok))
    (hpp : args.resolverPorts = some ports)
    (ha : args.resolverAuth = some auths)
    (hne : strs ≠ [])
    (hparse : ∀ i (h : i < strs.length),
      (parse (strs.get ⟨i, h⟩) (toU16 (ports.getD i 53))).isSome = true) :
    Option.map ClientConfig.congestion_control
        (Java_app_slipnet_tunnel_SlipstreamBridge_nativeStartSlipstreamClient
          parse args dies s).2.2
      = some (if cc.isEmpty then none else some cc) := by
  obtain ⟨rs, hrs, hlen, hget, hstart⟩ :=
    start_success_spec parse args dies s d lh cc strs ports auths
      hrun hd hl hc hh hpp ha hne hparse
  rw [hstart]
  rfl

/-- C8 (witness): the sample call with an empty congestion-control string
yields no override, and with "bbr" yields the literal "bbr". -/
theorem C8_congestion_normalization_witness :
    Option.map ClientConfig.congestion_control
        (Java_app_slipnet_tunnel_SlipstreamBridge_nativeStartSlipstreamClient
          parseEcho sampleArgs false initBridgeState).2.2 = some none
    ∧ Option.map ClientConfig.congestion_control
        (Java_app_slipnet_tunnel_SlipstreamBridge_nativeStartSlipstreamClient
          parseEcho ccResolverArgs false initBridgeState).2.2 = some (some "bbr") := by
  constructor
  · have h1 := C8_congestion_normalization parseEcho sampleArgs false initBridgeState
      "tunnel.example" "127.0.0.1" "" ["1.1.1.1"] [53] [false]
      rfl rfl rfl rfl rfl rfl rfl (by decide) (by decide)
    rw [h1]
    decide
  · have h2 := C8_congestion_normalization parseEcho ccResolverArgs false initBridgeState
      "tunnel.example" "127.0.0.1" "bbr" ["1.1.1.1"] [53] [false]
      rfl rfl rfl rfl rfl rfl rfl (by decide) (by decide)
    rw [h2]
    decide

/-- C9: when the grace-window liveness check fails (`dies = true`),
`start()` returns -11 but leaves the stored `ClientHandle` in the session
slot, without sending the shutdown signal or joining the thread (the ghost
counters are unchanged); a subsequent `stop()` therefore finds the handle:
it empties the slot and consumes the sender and the join handle. -/
theorem C9_failed_start_keeps_handle
    (parse : String → Nat → Option HostPort) (args : StartArgs)
    (s : BridgeState) (d lh cc : String) (strs : List String)
    (ports : List Int) (auths : List Bool)
    (hrun : s.isRunning = false)
    (hd : args.domain = some d) (hl : args.listenHost = some lh)
    (hc : args.congestionControl = some cc)
    (hh : args.resolverHosts = some (strs.map HostEntry.ok))
    (hpp : args.resolverPorts = some ports)
    (ha : args.resolverAuth = some auths)
    (hne : strs ≠ [])
    (hparse : ∀ i (h : i < strs.length),
      (parse (strs.get ⟨i, h⟩) (toU16 (ports.getD i 53))).isSome = true) :
    (Java_app_slipnet_tunnel_SlipstreamBridge_nativeStartSlipstreamClient
        parse args true s).1 = -11
    ∧ (Java_app_slipnet_tunnel_SlipstreamBridge_nativeStartSlipstreamClient
        parse args true s).2.1.clientState
        = some { shutdown_tx := some (), thread_handle := some () }
    ∧ (Java_app_slipnet_tunnel_SlipstreamBridge_nativeStartSlipstreamClient
        parse args true s).2.1.txSendCount = s.txSendCount
    ∧ (Java_app_slipnet_tunnel_SlipstreamBridge_nativeStartSlipstreamClient
        parse args true s).2.1.joinCount = s.joinCount
    ∧ (Java_app_slipnet_tunnel_SlipstreamBridge_nativeStopSlipstreamClient
        (Java_app_slipnet_tunnel_SlipstreamBridge_nativeStartSlipstreamClient
          parse args true s).2.1).clientState = none
    ∧ (Java_app_slipnet_tunnel_SlipstreamBridge_nativeStopSlipstreamClient
        (Java_app_slipnet_tunnel_SlipstreamBridge_nativeStartSlipstreamClient
          parse args true s).2.1).txSendCount = s.txSendCount + 1
    ∧ (Java_app_slipnet_tunnel_SlipstreamBridge_nativeStopSlipstreamClient
        (Java_app_slipnet_tunnel_SlipstreamBridge_nativeStartSlipstreamClient
          parse args true s).2.1).joinCount = s.joinCount + 1 := by
  obtain ⟨rs, hrs, hlen, hget, hstart⟩ :=
    start_success_spec parse args true s d lh cc strs ports auths
      hrun hd hl hc hh hpp ha hne hparse
  rw [hstart]
  simp [Java_app_slipnet_tunnel_SlipstreamBridge_nativeStopSlipstreamClient]

/-- C9 (witness): the sample call with a session thread that exits inside
the grace window, from the load state. -/
theorem C9_failed_start_keeps_handle_witness :
    (Java_app_slipnet_tunnel_SlipstreamBridge_nativeStartSlipstreamClient
        parseEcho sampleArgs true initBridgeState).1 = -11
    ∧ (Java_app_slipnet_tunnel_SlipstreamBridge_nativeStartSlipstreamClient
        parseEcho sampleArgs true initBridgeState).2.1.clientState
        = some { shutdown_tx := some (), thread_handle := some () }
    ∧ (Java_app_slipnet_tunnel_SlipstreamBridge_nativeStartSlipstreamClient
        parseEcho sampleArgs true initBridgeState).2.1.txSendCount
        = initBridgeState.txSendCount
    ∧ (Java_app_slipnet_tunnel_SlipstreamBridge_nativeStartSlipstreamClient
        parseEcho sampleArgs true initBridgeState).2.1.joinCount
        = initBridgeState.joinCount
    ∧ (Java_app_slipnet_tunnel_SlipstreamBridge_nativeStopSlipstreamClient
        (Java_app_slipnet_tunnel_SlipstreamBridge_nativeStartSlipstreamClient
          parseEcho sampleArgs true initBridgeState).2.1).clientState = none
    ∧ (Java_app_slipnet_tunnel_SlipstreamBridge_nativeStopSlipstreamClient
        (Java_app_slipnet_tunnel_SlipstreamBridge_nativeStartSlipstreamClient
          parseEcho sampleArgs true initBridgeState).2.1).txSendCount
        = initBridgeState.txSendCount + 1
    ∧ (Java_app_slipnet_tunnel_SlipstreamBridge_nativeStopSlipstreamClient
        (Java_app_slipnet_tunnel_SlipstreamBridge_nativeStartSlipstreamClient
          parseEcho sampleArgs true initBridgeState).2.1).joinCount
        = initBridgeState.joinCount + 1 :=
  C9_failed_start_keeps_handle parseEcho sampleArgs initBridgeState
    "tunnel.example" "127.0.0.1" "" ["1.1.1.1"] [53] [false]
    rfl rfl rfl rfl rfl rfl rfl (by decide) (by decide)

/-- C10: `start()` performs no range validation on port values.  For every
32-bit listen port and resolver ports (quantified over all integers, with
no range hypothesis), the call succeeds: the listen port used is the input
reduced modulo 2^16 = 65536, each resolver port used is the entry of the
ports vector (defaulting to 53 when absent) reduced modulo 65536, and a
missing authoritative flag defaults to false. -/
theorem C10_port_truncation_no_validation
    (parse : String → Nat → Option HostPort) (args : StartArgs)
    (s : BridgeState) (d lh cc : String) (strs : List String)
    (ports : List Int) (auths : List Bool)
    (hrun : s.isRunning = false)
    (hd : args.domain = some d) (hl : args.listenHost = some lh)
    (hc : args.congestionControl = some cc)
    (hh : args.resolverHosts = some (strs.map HostEntry.ok))
    (hpp : args.resolverPorts = some ports)
    (ha : args.resolverAuth = some auths)
    (hne : strs ≠ [])
    (hparse : ∀ i (h : i < strs.length),
      (parse (strs.get ⟨i, h⟩) (toU16 (ports.getD i 53))).isSome = true) :
    (Java_app_slipnet_tunnel_SlipstreamBridge_nativeStartSlipstreamClient
        parse args false s).1 = 0
    ∧ ∃ cfg, (Java_app_slipnet_tunnel_SlipstreamBridge_nativeStartSlipstreamClient
          parse args false s).2.2 = some cfg
        ∧ cfg.tcp_listen_port = (Int.emod args.listenPort 65536).toNat
        ∧ cfg.resolvers.length = strs.length
        ∧ ∀ i (h : i < strs.length), ∃ hp,
            parse (strs.get ⟨i, h⟩) ((Int.emod (ports.getD i 53) 65536).toNat) = some hp
            ∧ cfg.resolvers.get? i = some { resolver := hp, mode := if auths.getD i false then ResolverMode.Authoritative else ResolverMode.Recursive } := by
  obtain ⟨rs, hrs, hlen, hget, hstart⟩ :=
    start_success_spec parse args false s d lh cc strs ports auths
      hrun hd hl hc hh hpp ha hne hparse
  obtain ⟨rs2, hrs2, hlen2, hidx⟩ := buildResolvers_get_exact parse strs ports auths hparse
  rw [hrs] at hrs2
  have hrseq : rs = rs2 := by
    cases hrs2
    rfl
  subst hrseq
  rw [hstart]
  exact ⟨rfl, _, rfl, rfl, hlen, hidx⟩

/-- C10 (witness): listen port 70000 (above the `u16` range) and resolver
port -1 (below it) produce no error: the call returns 0 and uses
70000 mod 65536 = 4464 and -1 mod 65536 = 65535. -/
theorem C10_port_truncation_no_validation_witness :
    (Java_app_slipnet_tunnel_SlipstreamBridge_nativeStartSlipstreamClient
        parseEcho oorArgs false initBridgeState).1 = 0
    ∧ ∃ cfg, (Java_app_slipnet_tunnel_SlipstreamBridge_nativeStartSlipstreamClient
          parseEcho oorArgs false initBridgeState).2.2 = some cfg
        ∧ cfg.tcp_listen_port = (Int.emod oorArgs.listenPort 65536).toNat
        ∧ cfg.resolvers.length = (["1.1.1.1"] : List String).length
        ∧ ∀ i (h : i < (["1.1.1.1"] : List String).length), ∃ hp,
            parseEcho ((["1.1.1.1"] : List String).get ⟨i, h⟩)
                ((Int.emod (([-1] : List Int).getD i 53) 65536).toNat) = some hp
            ∧ cfg.resolvers.get? i = some { resolver := hp, mode := if ([false] : List Bool).getD i false then ResolverMode.Authoritative else ResolverMode.Recursive } :=
  C10_port_truncation_no_validation parseEcho oorArgs initBridgeState
    "tunnel.example" "127.0.0.1" "" ["1.1.1.1"] [-1] [false]
    rfl rfl rfl rfl rfl rfl rfl (by decide) (by decide)
